/-
Verification of the moblink relay agent (src/relay.rs) against its
natural-language specification.

The development shallowly embeds the relevant parts of the source:

* the address parsing helpers (parse_socket_addr and the std FromStr
  parsers it delegates to, modelled over lists of characters),
* the IPv4-mapped-IPv6 canonicalization step of the StartTunnel handler,
* the action trace of handle_message_request_start_tunnel,
* the status-producer closure built by create_get_status_closure,
* one iteration of relay_one_packet_from_destination_to_streamer,
* the supervisor state machine of RelayInner (started / connected /
  wrong_password flags, websocket writer, epoch-token cells, tunnel task
  handles), with reachability defined by folding an executable step
  function over a list of events.

Machine integers are modelled as Nat (all relevant values - ports, octets,
16-bit IPv6 groups - are bounded by construction, never overflowed by the
source, so no modular arithmetic is needed).
-/
import Mathlib

namespace Moblink

/- ------------------------------------------------------------------
List helpers: getD / set / append lemmas used by the cell heap model.
------------------------------------------------------------------- -/

theorem getD_set_eq (l : List Bool) (i : Nat) (h : i < l.length) (b : Bool) :
    (l.set i b).getD i false = b := by
  induction l generalizing i with
  | nil => simp at h
  | cons a t ih =>
    cases i with
    | zero => rfl
    | succ j => exact ih j (Nat.lt_of_succ_lt_succ h)

theorem getD_set_ne (l : List Bool) (i j : Nat) (h : i ≠ j) (b : Bool) :
    (l.set i b).getD j false = l.getD j false := by
  induction l generalizing i j with
  | nil => rfl
  | cons a t ih =>
    cases i with
    | zero =>
      cases j with
      | zero => exact absurd rfl h
      | succ j2 => rfl
    | succ i2 =>
      cases j with
      | zero => rfl
      | succ j2 => exact ih i2 j2 (fun hc => h (by rw [hc]))

theorem getD_set_false_true (l : List Bool) (i j : Nat)
    (h : (l.set i false).getD j false = true) : l.getD j false = true := by
  by_cases hij : i = j
  · subst hij
    by_cases hlen : i < l.length
    · rw [getD_set_eq l i hlen false] at h
      exact absurd h (by simp)
    · rw [List.set_eq_of_length_le (Nat.le_of_not_lt hlen)] at h
      exact h
  · rw [getD_set_ne l i j hij false] at h
    exact h

theorem getD_append_lt (l l2 : List Bool) (j : Nat) (h : j < l.length) :
    (l ++ l2).getD j false = l.getD j false := by
  induction l generalizing j with
  | nil => simp at h
  | cons a t ih =>
    cases j with
    | zero => rfl
    | succ j2 => exact ih j2 (Nat.lt_of_succ_lt_succ h)

theorem getD_append_self (l : List Bool) (b : Bool) :
    (l ++ [b]).getD l.length false = b := by
  induction l with
  | nil => rfl
  | cons a t ih => exact ih

theorem getD_ge_false (l : List Bool) (j : Nat) (h : l.length ≤ j) :
    l.getD j false = false := by
  induction l generalizing j with
  | nil => rfl
  | cons a t ih =>
    cases j with
    | zero => simp at h
    | succ j2 => exact ih j2 (Nat.le_of_succ_le_succ h)

/- ------------------------------------------------------------------
Address model.

IP addresses and socket addresses as used by relay.rs.  An IPv4 address
is four octets; an IPv6 address is its eight 16-bit groups.  relay.rs
obtains these values through the std FromStr parsers, which are external
to the repository; they are modelled below over lists of characters,
following the documented std grammar (dotted-quad IPv4 with 1-3 decimal
digits per octet and no leading zeros; RFC 4291 IPv6 text form with at
most one double-colon, 1-4 hex digits per group and an optional trailing
embedded IPv4; a socket address is either v4:port or bracketed v6:port).
------------------------------------------------------------------- -/

inductive IpAddrM where
  | v4 (a b c d : Nat)
  | v6 (segs : List Nat)
deriving DecidableEq, Repr

structure SocketAddrM where
  ip : IpAddrM
  port : Nat
deriving DecidableEq, Repr

def digitVal (c : Char) : Nat := c.toNat - 48

def decimalValue (cs : List Char) : Nat :=
  cs.foldl (fun a c => a * 10 + digitVal c) 0

/-- Models the octet grammar of std Ipv4Addr parsing: one to three decimal
digits, no leading zero unless the octet is exactly the digit 0, value at
most 255. -/
def parseOctet (cs : List Char) : Option Nat :=
  if cs ≠ [] ∧ cs.all (fun c => c.isDigit) ∧ cs.length ≤ 3 ∧
      (cs.length = 1 ∨ cs.head? ≠ some '0') then
    let n := decimalValue cs
    if n ≤ 255 then some n else none
  else none

/-- Splits a character list on a separator character, keeping empty parts,
with the semantics of splitting a string on a one-character separator. -/
def splitOnChar (sep : Char) : List Char → List (List Char)
  | [] => [[]]
  | c :: rest =>
    let r := splitOnChar sep rest
    if c = sep then [] :: r
    else
      match r with
      | h :: t => (c :: h) :: t
      | [] => [[c]]

/-- Models std Ipv4Addr FromStr: exactly four octets separated by dots. -/
def ipv4FromChars (cs : List Char) : Option (Nat × Nat × Nat × Nat) :=
  match splitOnChar '.' cs with
  | [a, b, c, d] =>
    match parseOctet a, parseOctet b, parseOctet c, parseOctet d with
    | some x, some y, some z, some w => some (x, y, z, w)
    | _, _, _, _ => none
  | _ => none

def hexVal (c : Char) : Nat :=
  if '0' ≤ c ∧ c ≤ '9' then c.toNat - 48
  else if 'a' ≤ c ∧ c ≤ 'f' then c.toNat - 87
  else c.toNat - 55

def isHexDigitChar (c : Char) : Bool :=
  c.isDigit || ('a' ≤ c && c ≤ 'f') || ('A' ≤ c && c ≤ 'F')

/-- Models one 16-bit IPv6 group: one to four hex digits. -/
def parseHexGroup (cs : List Char) : Option Nat :=
  if cs ≠ [] ∧ cs.length ≤ 4 ∧ cs.all isHexDigitChar then
    some (cs.foldl (fun a c => a * 16 + hexVal c) 0)
  else none

/-- Finds the first occurrence of a double colon, returning the characters
before and after it. -/
def breakOnColonColon : List Char → Option (List Char × List Char)
  | [] => none
  | ':' :: ':' :: rest => some ([], rest)
  | c :: rest =>
    match breakOnColonColon rest with
    | some (l, r) => some (c :: l, r)
    | none => none

/-- Parses colon-separated pieces into 16-bit groups, hex groups only. -/
def groupsHexOnly : List (List Char) → Option (List Nat)
  | [] => some []
  | p :: rest =>
    match parseHexGroup p, groupsHexOnly rest with
    | some g, some gs => some (g :: gs)
    | _, _ => none

/-- Parses colon-separated pieces into 16-bit groups, where the final piece
may be an embedded IPv4 address contributing two groups (the trailing
32 bits), as std allows at the end of an IPv6 address. -/
def groupsWithTrailingV4 : List (List Char) → Option (List Nat)
  | [] => some []
  | [p] =>
    match parseHexGroup p with
    | some g => some [g]
    | none =>
      match ipv4FromChars p with
      | some (a, b, c, d) => some [a * 256 + b, c * 256 + d]
      | none => none
  | p :: rest =>
    match parseHexGroup p, groupsWithTrailingV4 rest with
    | some g, some gs => some (g :: gs)
    | _, _ => none

def piecesOf (cs : List Char) : List (List Char) :=
  if cs = [] then [] else splitOnChar ':' cs

/-- Models std Ipv6Addr FromStr: either eight groups with no double colon,
or head and tail groups around a single double colon totalling at most
seven, the gap filled with zero groups.  An embedded IPv4 may only stand
in the trailing position. -/
def ipv6FromChars (cs : List Char) : Option (List Nat) :=
  match breakOnColonColon cs with
  | none =>
    match groupsWithTrailingV4 (splitOnChar ':' cs) with
    | some gs => if gs.length = 8 then some gs else none
    | none => none
  | some (l, r) =>
    match breakOnColonColon r with
    | some _ => none
    | none =>
      match groupsHexOnly (piecesOf l), groupsWithTrailingV4 (piecesOf r) with
      | some lgs, some rgs =>
        if lgs.length + rgs.length ≤ 7 then
          some (lgs ++ List.replicate (8 - lgs.length - rgs.length) 0 ++ rgs)
        else none
      | _, _ => none

/-- Models std IpAddr FromStr: IPv4 first, then IPv6. -/
def ipAddrFromChars (cs : List Char) : Option IpAddrM :=
  match ipv4FromChars cs with
  | some (a, b, c, d) => some (.v4 a b c d)
  | none =>
    match ipv6FromChars cs with
    | some segs => some (.v6 segs)
    | none => none

def ipAddrFromStr (s : String) : Option IpAddrM :=
  ipAddrFromChars s.toList

/-- Models the port grammar of std socket-address parsing: one or more
decimal digits with value at most 65535. -/
def parsePort (cs : List Char) : Option Nat :=
  if cs ≠ [] ∧ cs.all (fun c => c.isDigit) ∧ cs.length ≤ 5 then
    let n := decimalValue cs
    if n ≤ 65535 then some n else none
  else none

/-- Finds the first right-bracket-colon pair, returning the characters
before and after it; used for the bracketed IPv6 socket-address form. -/
def breakOnBracketColon : List Char → Option (List Char × List Char)
  | [] => none
  | ']' :: ':' :: rest => some ([], rest)
  | c :: rest =>
    match breakOnBracketColon rest with
    | some (l, r) => some (c :: l, r)
    | none => none

/-- Models std SocketAddr FromStr: v4:port, else bracketed-v6:port. -/
def socketAddrFromChars (cs : List Char) : Option SocketAddrM :=
  match splitOnChar ':' cs with
  | [ipcs, portcs] =>
    match ipv4FromChars ipcs, parsePort portcs with
    | some (a, b, c, d), some p => some ⟨.v4 a b c d, p⟩
    | _, _ => none
  | _ =>
    match cs with
    | '[' :: rest =>
      match breakOnBracketColon rest with
      | some (ipcs, portcs) =>
        match ipv6FromChars ipcs, parsePort portcs with
        | some segs, some p => some ⟨.v6 segs, p⟩
        | _, _ => none
      | none => none
    | _ => none

def socketAddrFromStr (s : String) : Option SocketAddrM :=
  socketAddrFromChars s.toList

/- ------------------------------------------------------------------
parse_socket_addr (relay.rs lines 614-632).
------------------------------------------------------------------- -/

inductive IoErrorKind where
  | invalidInput
  | notFound
  | other
deriving DecidableEq, Repr

/-- Embeds parse_socket_addr: first try the full socket-address parse,
then the bare IP parse with default port 0, otherwise an InvalidInput
error. -/
def parse_socket_addr (s : String) : Except IoErrorKind SocketAddrM :=
  match socketAddrFromStr s with
  | some sa => .ok sa
  | none =>
    match ipAddrFromStr s with
    | some ip => .ok ⟨ip, 0⟩
    | none => .error .invalidInput

/- ------------------------------------------------------------------
Destination IP canonicalization (relay.rs lines 383-394).
------------------------------------------------------------------- -/

/-- Models std Ipv6Addr to_ipv4, as called by the StartTunnel handler: it
converts both IPv4-compatible addresses (first six groups zero) and
IPv4-mapped addresses (first five groups zero, sixth group ffff),
returning the embedded IPv4 octets. -/
def ipv6ToIpv4 (segs : List Nat) : Option (Nat × Nat × Nat × Nat) :=
  match segs with
  | [0, 0, 0, 0, 0, g6, g7, g8] =>
    if g6 = 0 ∨ g6 = 0xffff then
      some (g7 / 256, g7 % 256, g8 / 256, g8 % 256)
    else none
  | _ => none

/-- Models std Ipv6Addr to_ipv4_mapped: converts only IPv4-mapped
addresses of the form ::ffff:a.b.c.d.  This is the conversion the
specification describes; the source calls to_ipv4 instead. -/
def ipv6ToIpv4Mapped (segs : List Nat) : Option (Nat × Nat × Nat × Nat) :=
  match segs with
  | [0, 0, 0, 0, 0, g6, g7, g8] =>
    if g6 = 0xffff then
      some (g7 / 256, g7 % 256, g8 / 256, g8 % 256)
    else none
  | _ => none

/-- Embeds the match on the resolved destination IP in
handle_message_request_start_tunnel: an IPv4 address is kept; for an IPv6
address, to_ipv4 is tried and its result used when it succeeds, otherwise
the IPv6 address is kept. -/
def canonicalize_destination_ip (ip : IpAddrM) : IpAddrM :=
  match ip with
  | .v4 a b c d => .v4 a b c d
  | .v6 segs =>
    match ipv6ToIpv4 segs with
    | some (a, b, c, d) => .v4 a b c d
    | none => .v6 segs

/- ------------------------------------------------------------------
Action trace of handle_message_request_start_tunnel
(relay.rs lines 350-409).
------------------------------------------------------------------- -/

/-- Observable steps of the StartTunnel handler, in execution order. -/
inductive TunnelStep where
  | parsedBindAddresses
  | boundStreamerSocket (port : Nat)
  | sentStartTunnelResponse (port : Nat)
  | boundDestinationSocket
  | resolvedDestinationHost
  | installedTunnelTask (destination : SocketAddrM)
deriving DecidableEq, Repr

/-- Environment of one StartTunnel handling: outcomes of the fallible
external operations, in the order the source performs them. -/
structure TunnelEnv where
  /-- Port assigned by the OS when the streamer-facing socket binds, or
  none when the bind fails. -/
  streamerBindPort : Option Nat
  /-- Whether sending the StartTunnelResponse on the control channel
  succeeds. -/
  sendOk : Bool
  /-- Whether binding the destination-facing socket succeeds. -/
  destinationBindOk : Bool
  /-- Result of resolve_host on the requested destination address, or
  none when resolution fails. -/
  resolveResult : Option String
deriving Repr

/-- Embeds handle_message_request_start_tunnel as a trace of observable
steps plus a success flag.  The source order is: parse both bind
addresses, bind the streamer socket, send the StartTunnelResponse with
the OS-assigned port, bind the destination socket, resolve the
destination host, canonicalize the resolved IP and install the
forwarding task.  Every fallible step aborts the handler with an error
when it fails. -/
def handle_message_request_start_tunnel_trace (bindAddress : String)
    (tunnelPort : Nat) (env : TunnelEnv) : List TunnelStep × Bool :=
  match parse_socket_addr "0.0.0.0" with
  | .error _ => ([], false)
  | .ok _ =>
  match parse_socket_addr bindAddress with
  | .error _ => ([], false)
  | .ok _ =>
    match env.streamerBindPort with
    | none => ([.parsedBindAddresses], false)
    | some p =>
      if env.sendOk then
        if env.destinationBindOk then
          match env.resolveResult with
          | none =>
            ([.parsedBindAddresses, .boundStreamerSocket p,
              .sentStartTunnelResponse p, .boundDestinationSocket], false)
          | some resolved =>
            match ipAddrFromStr resolved with
            | none =>
              ([.parsedBindAddresses, .boundStreamerSocket p,
                .sentStartTunnelResponse p, .boundDestinationSocket], false)
            | some ip =>
              ([.parsedBindAddresses, .boundStreamerSocket p,
                .sentStartTunnelResponse p, .boundDestinationSocket,
                .resolvedDestinationHost,
                .installedTunnelTask ⟨canonicalize_destination_ip ip, tunnelPort⟩],
               true)
        else
          ([.parsedBindAddresses, .boundStreamerSocket p,
            .sentStartTunnelResponse p], false)
      else
        ([.parsedBindAddresses, .boundStreamerSocket p], false)

/-- Scans a trace left to right and checks that no destination-facing
step (destination bind or host resolution) occurs before a
StartTunnelResponse send. -/
def respondsBeforeDestination : List TunnelStep → Bool
  | [] => true
  | .sentStartTunnelResponse _ :: _ => true
  | .boundDestinationSocket :: _ => false
  | .resolvedDestinationHost :: _ => false
  | _ :: rest => respondsBeforeDestination rest

/-- Checks that every StartTunnelResponse in a trace carries a port on
which the streamer-facing socket was previously bound. -/
def sentPortsWereBound (tr : List TunnelStep) : Bool :=
  tr.all fun a =>
    match a with
    | .sentStartTunnelResponse p => tr.contains (.boundStreamerSocket p)
    | _ => true

/- ------------------------------------------------------------------
Status producer (relay.rs lines 24-28 and 634-671).
------------------------------------------------------------------- -/

/-- Embeds the Status record; battery_percentage defaults to none. -/
structure Status where
  batteryPercentage : Option Int
deriving DecidableEq, Repr

/-- The defaulted empty Status produced by Default::default(). -/
def statusDefault : Status := { batteryPercentage := none }

/-- Observable side effects of one invocation of the status closure. -/
inductive StatusAction where
  | spawnedExecutable
  | openedFile
  | readFile
deriving DecidableEq, Repr

/-- Environment of one status-closure invocation: outcomes of the
external operations, plus the external decoding functions (String
from_utf8 and serde_json from_str), which live outside the repository
and are therefore kept abstract but executable. -/
structure StatusEnv where
  /-- Stdout bytes of the spawned executable, or none when spawning
  fails. -/
  spawnOutput : Option (List Nat)
  /-- Whether opening the status file succeeds. -/
  fileOpenOk : Bool
  /-- Bytes read from the status file, or none when reading fails. -/
  fileReadContents : Option (List Nat)
  /-- Models String from_utf8: none on invalid UTF-8. -/
  stringFromUtf8 : List Nat → Option String
  /-- Models serde_json from_str for Status: none when the text is not a
  JSON status record. -/
  statusFromJson : String → Option Status

/-- Embeds the tail of the closure: decode bytes as UTF-8 with the empty
string as fallback, then parse JSON, with the defaulted Status as
fallback. -/
def decodeStatus (env : StatusEnv) (bytes : List Nat) : Status :=
  let text := (env.stringFromUtf8 bytes).getD ""
  match env.statusFromJson text with
  | some st => st
  | none => statusDefault

/-- Embeds one invocation of the closure built by
create_get_status_closure: the executable branch is used whenever an
executable path is set, otherwise the file branch whenever a file path
is set, otherwise the defaulted Status; every failure short-circuits to
the defaulted Status.  The second component records the external actions
performed. -/
def get_status_closure_run (statusExecutable statusFile : Option String)
    (env : StatusEnv) : Status × List StatusAction :=
  match statusExecutable with
  | some _ =>
    match env.spawnOutput with
    | none => (statusDefault, [.spawnedExecutable])
    | some out => (decodeStatus env out, [.spawnedExecutable])
  | none =>
    match statusFile with
    | some _ =>
      if env.fileOpenOk then
        match env.fileReadContents with
        | none => (statusDefault, [.openedFile, .readFile])
        | some contents => (decodeStatus env contents, [.openedFile, .readFile])
      else (statusDefault, [.openedFile])
    | none => (statusDefault, [])

/- ------------------------------------------------------------------
One iteration of the destination-to-streamer relay task
(relay.rs lines 565-580).
------------------------------------------------------------------- -/

/-- The 30-second inactivity timeout on the destination socket. -/
def destinationRecvTimeoutSecs : Nat := 30

/-- The fixed receive buffer size of both forwarding tasks. -/
def relayBufferSize : Nat := 2048

/-- Outcome of the timed receive on the destination socket. -/
inductive ReverseRecv where
  | timedOut
  | recvFailed
  | gotDatagram (payload : List Nat)
deriving DecidableEq, Repr

/-- Environment of one iteration of the reverse relay function. -/
structure ReverseEnv where
  recv : ReverseRecv
  /-- The shared last-known streamer address at the time of the read. -/
  streamerAddr : Option SocketAddrM
  sendOk : Bool
deriving Repr

/-- Failure modes of one iteration.  noStreamerAddress corresponds to the
ok_or branch taken when the shared address cell holds no address (the
source message for it reads Failed to get address lock). -/
inductive ReverseError where
  | inactivityTimeout
  | recvError
  | noStreamerAddress
  | sendError
deriving DecidableEq, Repr

/-- Embeds relay_one_packet_from_destination_to_streamer: receive under
the 30-second timeout into a 2048-byte buffer, read the last-known
streamer address, fail when it is unset, otherwise forward the received
bytes to it.  The second component lists the datagrams sent to the
streamer socket. -/
def relay_one_packet_from_destination_to_streamer (env : ReverseEnv) :
    Except ReverseError Unit × List (SocketAddrM × List Nat) :=
  match env.recv with
  | .timedOut => (.error .inactivityTimeout, [])
  | .recvFailed => (.error .recvError, [])
  | .gotDatagram payload =>
    match env.streamerAddr with
    | none => (.error .noStreamerAddress, [])
    | some addr =>
      if env.sendOk then (.ok (), [(addr, payload.take relayBufferSize)])
      else (.error .sendError, [])

/- ------------------------------------------------------------------
Supervisor state machine (RelayInner, relay.rs lines 33-311 and 399-446).

The mutable state of RelayInner is embedded as a record.  The two
Arc-Mutex-bool epoch tokens are modelled as indices into a growing heap
of boolean cells (the cells list): replacing a token with a freshly
allocated Arc corresponds to appending a new cell and repointing the
index, exactly mirroring how superseded tasks keep observing the old
Arc.  Spawned tasks are modelled by the data they capture: a scheduled
start_soon timer captures the index of its start_on_reconnect_soon cell
(pendingStartSoon), the destination-to-streamer task captures the index
of its reconnect_on_tunnel_error cell (reverseTaskCells), and each live
streamer-to-destination forwarding task is identified by a task id
(liveForwardTasks).  Dropping a JoinHandle detaches the task, so only an
explicit abort removes an id from liveForwardTasks.

The websocket receiver task spawned by start_websocket_receiver holds
the reader half and runs until its loop breaks (Close frame, transport
error, handler error) or its stream ends.  stop_internal only takes and
closes the writer half and never aborts the receiver, so after stop()
the receiver is still live and still handles the peer's Close reply and
any in-flight frames.  The model therefore counts live receiver tasks
(liveReceivers, incremented on every successful connect, decremented
when a receiver breaks or its stream ends) and lets message events fire
whenever at least one receiver is live - in particular after stop.
------------------------------------------------------------------- -/

structure RelayState where
  started : Bool
  connected : Bool
  wrongPassword : Bool
  /-- Presence of the websocket writer half. -/
  wsWriter : Bool
  /-- Heap of epoch-token cells; indices are Arc identities. -/
  cells : List Bool
  /-- Index of the current reconnect_on_tunnel_error cell. -/
  reconnectOnTunnelError : Nat
  /-- Index of the current start_on_reconnect_soon cell. -/
  startOnReconnectSoon : Nat
  /-- Task id held in the relay_to_destination JoinHandle slot. -/
  relayToDestination : Option Nat
  /-- Ids of streamer-to-destination forwarding tasks still running. -/
  liveForwardTasks : List Nat
  /-- Cell indices captured by live destination-to-streamer tasks. -/
  reverseTaskCells : List Nat
  /-- Cell indices captured by scheduled start_soon timers not yet
  fired. -/
  pendingStartSoon : List Nat
  /-- Source of fresh forwarding-task ids. -/
  nextTask : Nat
  /-- Number of websocket receiver tasks still running.  stop_internal
  never aborts a receiver, so this is not reset on stop. -/
  liveReceivers : Nat
deriving DecidableEq, Repr

def getCell (s : RelayState) (c : Nat) : Bool :=
  s.cells.getD c false

/-- The state built by RelayInner::new: both epoch tokens freshly
allocated holding false, everything else empty or false. -/
def relayInit : RelayState where
  started := false
  connected := false
  wrongPassword := false
  wsWriter := false
  cells := [false, false]
  reconnectOnTunnelError := 0
  startOnReconnectSoon := 1
  relayToDestination := none
  liveForwardTasks := []
  reverseTaskCells := []
  pendingStartSoon := []
  nextTask := 0
  liveReceivers := 0

/-- Embeds stop_internal: close and drop the writer, clear both status
flags, write false into both current epoch cells, then abort and join
the streamer-to-destination task held in relay_to_destination, if
any. -/
def stop_internal (s : RelayState) : RelayState :=
  let s1 := { s with
    wsWriter := false
    connected := false
    wrongPassword := false }
  let s2 := { s1 with cells := s1.cells.set s1.reconnectOnTunnelError false }
  let s3 := { s2 with cells := s2.cells.set s2.startOnReconnectSoon false }
  match s3.relayToDestination with
  | some h =>
    { s3 with
      relayToDestination := none
      liveForwardTasks := s3.liveForwardTasks.erase h }
  | none => s3

/-- Embeds start_soon: spawn a timer task capturing the given
start_on_reconnect_soon cell. -/
def start_soon (s : RelayState) (c : Nat) : RelayState :=
  { s with pendingStartSoon := c :: s.pendingStartSoon }

/-- Embeds reconnect_soon: stop_internal, write false into the current
start_on_reconnect_soon cell, install a freshly allocated cell holding
true, and schedule a start_soon timer capturing it. -/
def reconnect_soon (s : RelayState) : RelayState :=
  let s1 := stop_internal s
  let s2 := { s1 with cells := s1.cells.set s1.startOnReconnectSoon false }
  let fresh := s2.cells.length
  let s3 := { s2 with
    cells := s2.cells ++ [true]
    startOnReconnectSoon := fresh }
  start_soon s3 fresh

/-- Outcome of one connection attempt in start_internal. -/
inductive ConnectOutcome where
  | ok
  | failed
  | badUrl
deriving DecidableEq, Repr

/-- Embeds start_internal: when started is false, tear down and return;
when the URL fails to parse, log and return; when the websocket connects
within the timeout, retain the writer and spawn a new receiver task; on
a connect failure or timeout, reconnect_soon. -/
def start_internal (s : RelayState) (o : ConnectOutcome) : RelayState :=
  if s.started = false then stop_internal s
  else
    match o with
    | .badUrl => s
    | .ok => { s with wsWriter := true, liveReceivers := s.liveReceivers + 1 }
    | .failed => reconnect_soon s

/-- Embeds RelayInner::start: a no-op when already started, otherwise set
started and run start_internal. -/
def relay_start (s : RelayState) (o : ConnectOutcome) : RelayState :=
  if s.started = false then start_internal { s with started := true } o
  else s

/-- Embeds RelayInner::stop: a no-op when already stopped, otherwise
clear started and run stop_internal. -/
def relay_stop (s : RelayState) : RelayState :=
  if s.started = true then stop_internal { s with started := false }
  else s

/-- Result carried by an Identified message. -/
inductive MoblinkResult where
  | ok
  | wrongPassword
deriving DecidableEq, Repr

/-- Embeds handle_message_identified: set the flag matching the result,
publish the status, and return Ok. -/
def handle_message_identified (s : RelayState) (r : MoblinkResult) :
    Except String RelayState :=
  match r with
  | .ok => .ok { s with connected := true }
  | .wrongPassword => .ok { s with wrongPassword := true }

/-- Embeds start_relay_from_streamer_to_destination: write false into the
current reconnect_on_tunnel_error cell, install a freshly allocated cell
holding true, and spawn the forwarding task (whose first received packet
spawns the destination-to-streamer task capturing the fresh cell; the
spawn is modelled eagerly).  Returns the new task id. -/
def start_relay_streamer_to_destination (s : RelayState) : RelayState × Nat :=
  let s1 := { s with cells := s.cells.set s.reconnectOnTunnelError false }
  let fresh := s1.cells.length
  let s2 := { s1 with
    cells := s1.cells ++ [true]
    reconnectOnTunnelError := fresh
    reverseTaskCells := fresh :: s1.reverseTaskCells }
  let h := s2.nextTask
  ({ s2 with
      nextTask := h + 1
      liveForwardTasks := h :: s2.liveForwardTasks }, h)

/-- Embeds the state effect of a successfully handled StartTunnel
request: spawn the new forwarding task and store its handle in
relay_to_destination.  The assignment drops any previous JoinHandle,
which detaches the previous task without aborting it. -/
def handle_message_request_start_tunnel_state (s : RelayState) : RelayState :=
  let (s1, h) := start_relay_streamer_to_destination s
  { s1 with relayToDestination := some h }

/-- Events driving the supervisor: facade calls, frames handled by a
still-running websocket receiver (which may be after stop, since stop
never aborts the receiver), failures inside a message handler, a
scheduled start_soon timer firing after its delay, and the
destination-to-streamer task exiting on error. -/
inductive Event where
  | start (o : ConnectOutcome)
  | stop
  /-- A receiver handles an Identified text frame. -/
  | msgIdentified (r : MoblinkResult)
  /-- A receiver handles a Close frame (or a reset-without-handshake
  transport error): reconnect_soon, then break. -/
  | msgClose
  /-- A receiver handles a StartTunnel request whose external steps all
  succeed; the response send requires the writer, and without one the
  handler fails, which makes the receiver reconnect_soon and break. -/
  | msgStartTunnel
  /-- Any message handler failure (send failure, bind failure, resolver
  failure): the receiver logs it, calls reconnect_soon and breaks. -/
  | handlerError
  /-- A receiver breaks on an ordinary transport error, or its stream
  ends: the task exits without further action. -/
  | recvError
  | fireStartSoon (c : Nat) (o : ConnectOutcome)
  | tunnelError (c : Nat)
deriving DecidableEq, Repr

/-- One supervisor transition per event.  Message events fire whenever a
receiver task is still running - stop_internal only closes the writer
and never stops the receiver, so frames still in flight (including the
peer's Close reply to our own close) are handled after stop.  A handler
error makes the receiver reconnect_soon and break; a firing timer
re-checks its captured cell and runs start_internal only when it still
holds true; an exiting destination-to-streamer task re-checks its
captured cell and calls reconnect_soon only when it still holds true. -/
def step (s : RelayState) (e : Event) : RelayState :=
  match e with
  | .start o => relay_start s o
  | .stop => relay_stop s
  | .msgIdentified r =>
    if 0 < s.liveReceivers then
      match handle_message_identified s r with
      | .ok s1 => s1
      | .error _ =>
        let s1 := reconnect_soon s
        { s1 with liveReceivers := s1.liveReceivers - 1 }
    else s
  | .msgClose =>
    if 0 < s.liveReceivers then
      let s1 := reconnect_soon s
      { s1 with liveReceivers := s1.liveReceivers - 1 }
    else s
  | .msgStartTunnel =>
    if 0 < s.liveReceivers then
      if s.wsWriter = true then handle_message_request_start_tunnel_state s
      else
        let s1 := reconnect_soon s
        { s1 with liveReceivers := s1.liveReceivers - 1 }
    else s
  | .handlerError =>
    if 0 < s.liveReceivers then
      let s1 := reconnect_soon s
      { s1 with liveReceivers := s1.liveReceivers - 1 }
    else s
  | .recvError =>
    if 0 < s.liveReceivers then
      { s with liveReceivers := s.liveReceivers - 1 }
    else s
  | .fireStartSoon c o =>
    if c ∈ s.pendingStartSoon then
      let s1 := { s with pendingStartSoon := s.pendingStartSoon.erase c }
      if getCell s1 c = true then start_internal s1 o else s1
    else s
  | .tunnelError c =>
    if c ∈ s.reverseTaskCells then
      let s1 := { s with reverseTaskCells := s.reverseTaskCells.erase c }
      if getCell s1 c = true then reconnect_soon s1 else s1
    else s

/-- The state after a trace of events, from the freshly constructed
relay. -/
def run (es : List Event) : RelayState :=
  es.foldl step relayInit

/-- A state is reachable when some event trace produces it. -/
def Reachable (s : RelayState) : Prop :=
  ∃ es : List Event, run es = s

/-- The cell heap after stop_internal: both current cells forced to
false. -/
def cellsAfterStop (s : RelayState) : List Bool :=
  (s.cells.set s.reconnectOnTunnelError false).set s.startOnReconnectSoon false

theorem cellsAfterStop_length (s : RelayState) :
    (cellsAfterStop s).length = s.cells.length := by
  simp [cellsAfterStop]

theorem cellsAfterStop_true (s : RelayState) (c : Nat)
    (h : (cellsAfterStop s).getD c false = true) : getCell s c = true := by
  exact getD_set_false_true _ _ _ (getD_set_false_true _ _ _ h)

theorem cellsAfterStop_soon (s : RelayState)
    (h : s.startOnReconnectSoon < s.cells.length) :
    (cellsAfterStop s).getD s.startOnReconnectSoon false = false := by
  apply getD_set_eq
  simpa using h

theorem cellsAfterStop_tun (s : RelayState)
    (h : s.reconnectOnTunnelError < s.cells.length) :
    (cellsAfterStop s).getD s.reconnectOnTunnelError false = false := by
  by_cases hc : s.startOnReconnectSoon = s.reconnectOnTunnelError
  · rw [cellsAfterStop, hc]
    apply getD_set_eq
    simpa using h
  · rw [cellsAfterStop, getD_set_ne _ _ _ hc]
    exact getD_set_eq _ _ h false

/-- Field-level characterization of stop_internal. -/
theorem stop_internal_eq (s : RelayState) :
    stop_internal s = { s with
      wsWriter := false
      connected := false
      wrongPassword := false
      cells := cellsAfterStop s
      relayToDestination := none
      liveForwardTasks :=
        match s.relayToDestination with
        | some h => s.liveForwardTasks.erase h
        | none => s.liveForwardTasks } := by
  unfold stop_internal cellsAfterStop
  cases s.relayToDestination <;> rfl

/-- Field-level characterization of reconnect_soon: on top of the
teardown, the current start_on_reconnect_soon cell is written false
again, a fresh cell holding true is installed and a timer capturing it
is scheduled. -/
theorem reconnect_soon_eq (s : RelayState) :
    reconnect_soon s = { s with
      wsWriter := false
      connected := false
      wrongPassword := false
      cells := (cellsAfterStop s).set s.startOnReconnectSoon false ++ [true]
      startOnReconnectSoon :=
        ((cellsAfterStop s).set s.startOnReconnectSoon false).length
      relayToDestination := none
      liveForwardTasks :=
        match s.relayToDestination with
        | some h => s.liveForwardTasks.erase h
        | none => s.liveForwardTasks
      pendingStartSoon :=
        ((cellsAfterStop s).set s.startOnReconnectSoon false).length ::
          s.pendingStartSoon } := by
  unfold reconnect_soon start_soon
  rw [stop_internal_eq]

/-- Field-level characterization of the StartTunnel state effect: the
current reconnect_on_tunnel_error cell is written false, a fresh cell
holding true is installed and captured by the new reverse task, and the
new forwarding task id is stored over the previous handle, which is
dropped without being aborted - it stays in liveForwardTasks. -/
theorem start_tunnel_state_eq (s : RelayState) :
    handle_message_request_start_tunnel_state s = { s with
      cells := s.cells.set s.reconnectOnTunnelError false ++ [true]
      reconnectOnTunnelError := (s.cells.set s.reconnectOnTunnelError false).length
      reverseTaskCells :=
        (s.cells.set s.reconnectOnTunnelError false).length :: s.reverseTaskCells
      nextTask := s.nextTask + 1
      liveForwardTasks := s.nextTask :: s.liveForwardTasks
      relayToDestination := some s.nextTask } := by
  rfl


/- ------------------------------------------------------------------
Claims.
------------------------------------------------------------------- -/

/-- C1: the claim states that installing a new streamer-to-destination
task handle cancels (aborts and joins) any prior handle before the new
one is stored.  The source instead overwrites relay_to_destination,
which merely drops the prior JoinHandle and detaches the task.  After a
connection and two StartTunnel requests, both forwarding tasks (ids 0
and 1) are still live while only the handle of task 1 is stored. -/
theorem claim_C1_supersede_leaves_prior_task_running :
    (run [.start .ok, .msgStartTunnel, .msgStartTunnel]).relayToDestination
      = some 1 ∧
    (run [.start .ok, .msgStartTunnel, .msgStartTunnel]).liveForwardTasks
      = [1, 0] := by
  decide

/-- C2, counterexample: the claim states connected and wrong_password
are never both true and that each implies started.  Both parts fail.
Handling Identified Ok and then Identified WrongPassword on one
connection leaves both flags true, because neither branch of
handle_message_identified clears the other flag.  And because
stop_internal never aborts the receiver task, an in-flight Identified Ok
frame handled after stop sets connected while started is false. -/
theorem claim_C2_counterexample :
    (run [.start .ok, .msgIdentified .ok,
      .msgIdentified .wrongPassword]).connected = true ∧
    (run [.start .ok, .msgIdentified .ok,
      .msgIdentified .wrongPassword]).wrongPassword = true ∧
    (run [.start .ok, .stop, .msgIdentified .ok]).connected = true ∧
    (run [.start .ok, .stop, .msgIdentified .ok]).started = false := by
  decide

/-- C2, amended: handling Identified Ok sets connected and handling
Identified WrongPassword sets wrong_password, in each case leaving every
other field - in particular the other flag - unchanged, and every
teardown (stop_internal) clears both flags.  The claimed invariants
themselves do not hold: the flags are not mutually exclusive, and
neither implies started, since the receiver outlives stop and a late
Identified message still sets its flag while stopped. -/
theorem claim_C2_flags_behavior (s : RelayState) :
    handle_message_identified s .ok = .ok { s with connected := true } ∧
    handle_message_identified s .wrongPassword
      = .ok { s with wrongPassword := true } ∧
    (stop_internal s).connected = false ∧
    (stop_internal s).wrongPassword = false := by
  refine ⟨rfl, rfl, ?_, ?_⟩
  · rw [stop_internal_eq]
  · rw [stop_internal_eq]

/-- C3: the claim (and the specification, section 3 invariants and
property 8.2) states that whenever started is false both epoch-token
cells hold false, so no pending reconnect task can act.  The code
violates this: stop_internal only closes the writer and never aborts the
receiver task, so after stop() the peer's Close reply to our own close
is still delivered, and the receiver's Close branch calls reconnect_soon
unconditionally.  In the resulting state started is false yet the
current start_on_reconnect_soon cell holds true and a timer capturing it
is pending - and when that timer fires it does act: its cell reads true,
so it calls start_internal, whose not-started branch re-runs the
teardown (writing the cells back to false; in the source this also
emits a status callback after stop). -/
theorem claim_C3_post_stop_close_reconnect :
    (run [.start .ok, .stop, .msgClose]).started = false ∧
    getCell (run [.start .ok, .stop, .msgClose])
      (run [.start .ok, .stop, .msgClose]).startOnReconnectSoon = true ∧
    (run [.start .ok, .stop, .msgClose]).pendingStartSoon
      = [(run [.start .ok, .stop, .msgClose]).startOnReconnectSoon] ∧
    (run [.start .ok, .stop, .msgClose]).cells = [false, false, true] ∧
    (step (run [.start .ok, .stop, .msgClose])
      (.fireStartSoon
        (run [.start .ok, .stop, .msgClose]).startOnReconnectSoon .ok)).cells
      = [false, false, false] := by
  decide

/-- C4: in every execution of the StartTunnel handler, no
destination-facing step (binding the destination socket or resolving the
destination host) occurs in the action trace before the
StartTunnelResponse send, and every sent response carries a port on
which the streamer-facing socket was bound. -/
theorem claim_C4_response_before_destination (bindAddress : String)
    (tunnelPort : Nat) (env : TunnelEnv) :
    respondsBeforeDestination
      (handle_message_request_start_tunnel_trace bindAddress tunnelPort env).1
      = true ∧
    sentPortsWereBound
      (handle_message_request_start_tunnel_trace bindAddress tunnelPort env).1
      = true := by
  obtain ⟨sbp, sok, dok, rr⟩ := env
  simp only [handle_message_request_start_tunnel_trace]
  rw [show parse_socket_addr "0.0.0.0" = Except.ok ⟨IpAddrM.v4 0 0 0 0, 0⟩
    from rfl]
  cases hba : parse_socket_addr bindAddress with
  | error e =>
    refine ⟨?_, ?_⟩ <;> simp [respondsBeforeDestination, sentPortsWereBound]
  | ok a =>
    cases sbp with
    | none =>
      refine ⟨?_, ?_⟩ <;> simp [respondsBeforeDestination, sentPortsWereBound]
    | some p =>
      cases sok with
      | false =>
        refine ⟨?_, ?_⟩ <;>
          simp [respondsBeforeDestination, sentPortsWereBound]
      | true =>
        cases dok with
        | false =>
          refine ⟨?_, ?_⟩ <;>
            simp [respondsBeforeDestination, sentPortsWereBound]
        | true =>
          cases rr with
          | none =>
            refine ⟨?_, ?_⟩ <;>
              simp [respondsBeforeDestination, sentPortsWereBound]
          | some resolved =>
            cases hip : ipAddrFromStr resolved with
            | none =>
              refine ⟨?_, ?_⟩ <;>
                simp [respondsBeforeDestination, sentPortsWereBound, hip]
            | some ip =>
              refine ⟨?_, ?_⟩ <;>
                simp [respondsBeforeDestination, sentPortsWereBound, hip]

/-- C5: parse_socket_addr returns the parsed endpoint for any string the
socket-address grammar accepts, falls back to the bare IP with port 0,
and otherwise fails with InvalidInput; with the three boundary
examples. -/
theorem claim_C5_parse_socket_addr (s : String) :
    (∀ a, socketAddrFromStr s = some a → parse_socket_addr s = .ok a) ∧
    (socketAddrFromStr s = none → ∀ ip, ipAddrFromStr s = some ip →
      parse_socket_addr s = .ok ⟨ip, 0⟩) ∧
    (socketAddrFromStr s = none → ipAddrFromStr s = none →
      parse_socket_addr s = .error .invalidInput) ∧
    parse_socket_addr "1.2.3.4" = .ok ⟨.v4 1 2 3 4, 0⟩ ∧
    parse_socket_addr "1.2.3.4:5" = .ok ⟨.v4 1 2 3 4, 5⟩ ∧
    parse_socket_addr "not-an-ip" = .error .invalidInput := by
  refine ⟨?_, ?_, ?_, rfl, rfl, rfl⟩
  · intro a ha
    simp [parse_socket_addr, ha]
  · intro h0 ip hip
    simp [parse_socket_addr, h0, hip]
  · intro h0 h1
    simp [parse_socket_addr, h0, h1]

theorem claim_C5_parse_socket_addr_witness :
    parse_socket_addr "1.2.3.4:5" = .ok ⟨.v4 1 2 3 4, 5⟩ :=
  (claim_C5_parse_socket_addr "1.2.3.4:5").1 ⟨.v4 1 2 3 4, 5⟩ rfl

/-- C6: the claim states the destination IP is replaced if and only if
it is IPv4-mapped (the ffff form).  The source calls to_ipv4, which also
converts IPv4-compatible addresses whose first 96 bits are zero: the
loopback address with segments ending in 1 is not IPv4-mapped, yet the
handler turns it into 0.0.0.1 instead of keeping it as IPv6.  A genuine
IPv4-mapped address converts as described. -/
theorem claim_C6_compatible_also_converted :
    canonicalize_destination_ip (.v6 [0, 0, 0, 0, 0, 0, 0, 1]) = .v4 0 0 0 1 ∧
    ipv6ToIpv4Mapped [0, 0, 0, 0, 0, 0, 0, 1] = none ∧
    canonicalize_destination_ip (.v6 [0, 0, 0, 0, 0, 0xffff, 258, 772])
      = .v4 1 2 3 4 ∧
    canonicalize_destination_ip (.v4 9 8 7 6) = .v4 9 8 7 6 := by
  decide

/-- C7: the status closure prefers the executable and never touches the
file when both are configured, returns the defaulted empty Status when
neither is configured, and returns the defaulted empty Status on every
failure of the chosen variant (spawn failure, open failure, read
failure, UTF-8 or JSON decode failure). -/
theorem claim_C7_status_closure (statusExecutable statusFile : Option String)
    (env : StatusEnv) :
    (statusExecutable.isSome = true →
      StatusAction.openedFile ∉
        (get_status_closure_run statusExecutable statusFile env).2 ∧
      StatusAction.readFile ∉
        (get_status_closure_run statusExecutable statusFile env).2) ∧
    (statusExecutable = none → statusFile = none →
      get_status_closure_run statusExecutable statusFile env
        = (statusDefault, [])) ∧
    (statusExecutable.isSome = true → env.spawnOutput = none →
      (get_status_closure_run statusExecutable statusFile env).1
        = statusDefault) ∧
    (∀ bytes, env.statusFromJson ((env.stringFromUtf8 bytes).getD "") = none →
      decodeStatus env bytes = statusDefault) ∧
    (statusExecutable.isSome = true → ∀ out, env.spawnOutput = some out →
      env.statusFromJson ((env.stringFromUtf8 out).getD "") = none →
      (get_status_closure_run statusExecutable statusFile env).1
        = statusDefault) ∧
    (statusExecutable = none → statusFile.isSome = true →
      env.fileOpenOk = false →
      (get_status_closure_run statusExecutable statusFile env).1
        = statusDefault) ∧
    (statusExecutable = none → statusFile.isSome = true →
      env.fileOpenOk = true → env.fileReadContents = none →
      (get_status_closure_run statusExecutable statusFile env).1
        = statusDefault) ∧
    (statusExecutable = none → statusFile.isSome = true →
      env.fileOpenOk = true → ∀ contents,
      env.fileReadContents = some contents →
      env.statusFromJson ((env.stringFromUtf8 contents).getD "") = none →
      (get_status_closure_run statusExecutable statusFile env).1
        = statusDefault) := by
  refine ⟨?_, ?_, ?_, ?_, ?_, ?_, ?_, ?_⟩
  · intro hexe
    match statusExecutable, hexe with
    | some e, _ =>
      cases hso : env.spawnOutput <;>
        simp [get_status_closure_run, hso]
  · intro h1 h2
    subst h1; subst h2
    rfl
  · intro hexe hso
    match statusExecutable, hexe with
    | some e, _ => simp [get_status_closure_run, hso]
  · intro bytes hjson
    simp [decodeStatus, hjson]
  · intro hexe out hso hjson
    match statusExecutable, hexe with
    | some e, _ =>
      simp [get_status_closure_run, hso, decodeStatus, hjson]
  · intro hexe hfile hopen
    subst hexe
    match statusFile, hfile with
    | some f, _ => simp [get_status_closure_run, hopen]
  · intro hexe hfile hopen hread
    subst hexe
    match statusFile, hfile with
    | some f, _ => simp [get_status_closure_run, hopen, hread]
  · intro hexe hfile hopen contents hread hjson
    subst hexe
    match statusFile, hfile with
    | some f, _ =>
      simp [get_status_closure_run, hopen, hread, decodeStatus, hjson]

/-- A concrete status environment in which spawning fails. -/
def statusEnvSpawnFail : StatusEnv where
  spawnOutput := none
  fileOpenOk := true
  fileReadContents := some []
  stringFromUtf8 := fun _ => none
  statusFromJson := fun _ => none

theorem claim_C7_status_closure_witness :
    StatusAction.openedFile ∉
      (get_status_closure_run (some "/bin/st") (some "/tmp/st")
        statusEnvSpawnFail).2 ∧
    (get_status_closure_run (some "/bin/st") (some "/tmp/st")
      statusEnvSpawnFail).1 = statusDefault :=
  ⟨((claim_C7_status_closure (some "/bin/st") (some "/tmp/st")
      statusEnvSpawnFail).1 rfl).1,
   (claim_C7_status_closure (some "/bin/st") (some "/tmp/st")
      statusEnvSpawnFail).2.2.1 rfl rfl⟩

/-- C8: the exact scenario of the claim - from any running state, a
reconnect is scheduled (reconnect_soon installs a fresh token and a
timer capturing it) and stop() is then called before the 5-second delay
elapses.  The timer is still pending after stop, its captured cell then
reads false (stop_internal wrote it false), so when it fires it only
removes itself, without running start_internal, and the websocket writer
stays absent - no new connection attempt is made after stop. -/
theorem claim_C8_superseded_reconnect (s : RelayState) (o : ConnectOutcome)
    (hs : s.started = true) :
    (reconnect_soon s).startOnReconnectSoon
        ∈ (relay_stop (reconnect_soon s)).pendingStartSoon ∧
    getCell (relay_stop (reconnect_soon s))
        (reconnect_soon s).startOnReconnectSoon = false ∧
    step (relay_stop (reconnect_soon s))
        (.fireStartSoon (reconnect_soon s).startOnReconnectSoon o)
      = { relay_stop (reconnect_soon s) with
          pendingStartSoon :=
            (relay_stop (reconnect_soon s)).pendingStartSoon.erase
              (reconnect_soon s).startOnReconnectSoon } ∧
    (step (relay_stop (reconnect_soon s))
        (.fireStartSoon (reconnect_soon s).startOnReconnectSoon o)).wsWriter
      = false := by
  have hst1 : (reconnect_soon s).started = true := by
    rw [reconnect_soon_eq]
    exact hs
  have hstop : relay_stop (reconnect_soon s)
      = stop_internal { reconnect_soon s with started := false } := by
    unfold relay_stop
    rw [if_pos hst1]
  have hmem : (reconnect_soon s).startOnReconnectSoon
      ∈ (relay_stop (reconnect_soon s)).pendingStartSoon := by
    rw [hstop, stop_internal_eq, reconnect_soon_eq]
    exact List.mem_cons_self _ _
  have hcell : getCell (relay_stop (reconnect_soon s))
      (reconnect_soon s).startOnReconnectSoon = false := by
    rw [hstop, stop_internal_eq, reconnect_soon_eq]
    simp only [getCell, cellsAfterStop]
    apply getD_set_eq
    simp
  have hno : ¬ (getCell
      { relay_stop (reconnect_soon s) with
        pendingStartSoon :=
          (relay_stop (reconnect_soon s)).pendingStartSoon.erase
            (reconnect_soon s).startOnReconnectSoon }
      (reconnect_soon s).startOnReconnectSoon = true) := by
    intro hx
    have hx2 : getCell (relay_stop (reconnect_soon s))
        (reconnect_soon s).startOnReconnectSoon = true := hx
    rw [hcell] at hx2
    exact absurd hx2 (by simp)
  have h3 : step (relay_stop (reconnect_soon s))
      (.fireStartSoon (reconnect_soon s).startOnReconnectSoon o)
      = { relay_stop (reconnect_soon s) with
          pendingStartSoon :=
            (relay_stop (reconnect_soon s)).pendingStartSoon.erase
              (reconnect_soon s).startOnReconnectSoon } := by
    simp only [step]
    rw [if_pos hmem, if_neg hno]
  refine ⟨hmem, hcell, h3, ?_⟩
  rw [h3]
  show (relay_stop (reconnect_soon s)).wsWriter = false
  rw [hstop, stop_internal_eq]

theorem claim_C8_superseded_reconnect_witness :
    getCell (relay_stop (reconnect_soon (run [.start .ok])))
      (reconnect_soon (run [.start .ok])).startOnReconnectSoon = false ∧
    (step (relay_stop (reconnect_soon (run [.start .ok])))
      (.fireStartSoon
        (reconnect_soon (run [.start .ok])).startOnReconnectSoon .ok)).wsWriter
      = false :=
  have h := claim_C8_superseded_reconnect (run [.start .ok]) .ok (by decide)
  ⟨h.2.1, h.2.2.2⟩

/-- C9: one iteration of the destination-to-streamer relay fails when
the 30-second receive timeout elapses; when a datagram arrives but the
last-known streamer address is unset it fails with the no-address error
without sending anything; and otherwise it forwards the received payload
(truncated to the 2048-byte buffer) to the last-known address. -/
theorem claim_C9_reverse_relay (env : ReverseEnv) :
    (env.recv = .timedOut →
      relay_one_packet_from_destination_to_streamer env
        = (.error .inactivityTimeout, [])) ∧
    (∀ payload, env.recv = .gotDatagram payload → env.streamerAddr = none →
      relay_one_packet_from_destination_to_streamer env
        = (.error .noStreamerAddress, [])) ∧
    (∀ payload addr, env.recv = .gotDatagram payload →
      env.streamerAddr = some addr → env.sendOk = true →
      relay_one_packet_from_destination_to_streamer env
        = (.ok (), [(addr, payload.take relayBufferSize)])) := by
  refine ⟨?_, ?_, ?_⟩
  · intro hr
    simp [relay_one_packet_from_destination_to_streamer, hr]
  · intro payload hr ha
    simp [relay_one_packet_from_destination_to_streamer, hr, ha]
  · intro payload addr hr ha hsend
    simp [relay_one_packet_from_destination_to_streamer, hr, ha, hsend]

theorem claim_C9_reverse_relay_witness :
    relay_one_packet_from_destination_to_streamer
      { recv := .gotDatagram [7, 7], streamerAddr := some ⟨.v4 127 0 0 1, 9⟩,
        sendOk := true }
      = (.ok (), [(⟨.v4 127 0 0 1, 9⟩, [7, 7])]) :=
  (claim_C9_reverse_relay
    { recv := .gotDatagram [7, 7], streamerAddr := some ⟨.v4 127 0 0 1, 9⟩,
      sendOk := true }).2.2 [7, 7] ⟨.v4 127 0 0 1, 9⟩ rfl rfl rfl

/-- C10: handle_message_identified returns Ok for every state and
result, so an Identified message (also a duplicate or contradictory one)
never takes the handler-error branch of the receive loop: the step it
induces never schedules a reconnect timer, never reallocates the
start_on_reconnect_soon token and never drops the writer. -/
theorem claim_C10_identified_never_errors (s : RelayState) (r : MoblinkResult) :
    (∃ s2, handle_message_identified s r = .ok s2) ∧
    (step s (.msgIdentified r)).pendingStartSoon = s.pendingStartSoon ∧
    (step s (.msgIdentified r)).startOnReconnectSoon = s.startOnReconnectSoon ∧
    (step s (.msgIdentified r)).cells = s.cells ∧
    (step s (.msgIdentified r)).wsWriter = s.wsWriter := by
  cases r <;> by_cases hr : 0 < s.liveReceivers <;>
    simp [step, handle_message_identified, hr]

end Moblink
